import Mathlib

/-!
# EkClick — Order Lifecycle & Real-Time Event Distribution

Shallow embedding of the order-lifecycle routes, the chat route, the
WebSocket subscription handler and the password comparison of the
EkClick multi-vendor delivery platform, together with theorems checking
the natural-language specification against this embedding.

The embedding follows the TypeScript source:
* `src/server/routes.ts` — the Express route handlers and the
  WebSocket server (`registerRoutes`);
* `src/server/auth.ts` — `comparePasswords` and the passport
  `LocalStrategy` verify callback;
* the shared Drizzle schema — enums and table shapes (`orderStatusEnum`,
  `userRoleEnum`, `orders`, `chats`, the insert schemas).

Records are projected to the columns the verified properties are about;
dropped columns are never read or written by any embedded operation.
-/

namespace EkClick

/-- The `order_status` enum of the shared schema: `"pending"`,
`"confirmed"`, `"preparing"`, `"ready"`, `"picked_up"`, `"in_transit"`,
`"delivered"`, `"cancelled"`. -/
inductive OrderStatus
  | pending
  | confirmed
  | preparing
  | ready
  | picked_up
  | in_transit
  | delivered
  | cancelled
deriving DecidableEq, Repr

/-- The `user_role` enum of the shared schema: `"admin"`, `"vendor"`,
`"delivery"`, `"user"`. -/
inductive Role
  | admin
  | vendor
  | delivery
  | user
deriving DecidableEq, Repr

/-- An authenticated request user (`req.user`), projected to the fields
the route handlers read: `id` and `role`. -/
structure User where
  id : String
  role : Role
deriving DecidableEq, Repr

/-- A row of the `vendors` table, projected to the fields the handlers
read: the vendor `id` and the owning user's `userId`. -/
structure Vendor where
  id : String
  userId : String
deriving DecidableEq, Repr

/-- A row of the `orders` table, projected to the columns the lifecycle
claims are about.  `deliveryPersonId` and `actualDeliveryTime` are
nullable columns, hence `Option`. -/
structure Order where
  id : String
  userId : String
  vendorId : String
  deliveryPersonId : Option String
  status : OrderStatus
  totalAmount : String
  deliveryAddress : String
  pickupAddress : String
  actualDeliveryTime : Option Nat
deriving DecidableEq, Repr

/-- A row of the `chats` table, projected to the columns the chat route
writes (`id`/`createdAt` are store-generated and omitted). -/
structure Chat where
  orderId : String
  senderId : String
  receiverId : String
  message : String
  isRead : Bool
deriving DecidableEq, Repr

/-- The durable store visible to the embedded handlers.
Modelled from the spec: the repository's `storage` module is not part of
the sources given here (only its callers are); per the spec the
persistence layer is an opaque external service offering an abstract
durable read/write of rows, modelled as in-memory lists of rows. -/
structure Store where
  orders : List Order
  vendors : List Vendor
  chats : List Chat
deriving DecidableEq, Repr

/-- Modelled from the spec: `storage.getOrder(id)` — abstract durable
read of the order row with the given id. -/
def getOrder (st : Store) (oid : String) : Option Order :=
  st.orders.find? fun o => decide (o.id = oid)

/-- Modelled from the spec: `storage.getVendorByUserId(userId)` —
abstract durable read of the vendor row owned by the given user. -/
def getVendorByUserId (st : Store) (uid : String) : Option Vendor :=
  st.vendors.find? fun v => decide (v.userId = uid)

/-- The JSON body of a `PUT /api/orders/:id` request, projected to the
order columns the claims concern.  An outer `none` means the field is
absent from the body; for the nullable columns the inner `Option` is the
JSON value (`null` or a string / timestamp). -/
structure UpdateBody where
  status : Option OrderStatus
  deliveryPersonId : Option (Option String)
  actualDeliveryTime : Option (Option Nat)
deriving DecidableEq, Repr

/-- Modelled from the spec: `storage.updateOrder(id, data)` writes the
supplied columns into the stored row — an abstract durable write that
merges the body fields and leaves absent fields unchanged. -/
def applyBody (o : Order) (b : UpdateBody) : Order :=
  { o with
    status := b.status.getD o.status
    deliveryPersonId := b.deliveryPersonId.getD o.deliveryPersonId
    actualDeliveryTime := b.actualDeliveryTime.getD o.actualDeliveryTime }

/-- Outcome of a route handler: the HTTP responses the handlers of
`routes.ts` produce (401, 404, 403, 400, 200/201 with a payload). -/
inductive RouteResult (α : Type)
  | unauthorized
  | notFound
  | forbidden
  | badRequest
  | ok (val : α)
deriving DecidableEq, Repr

/-- The permission check of the `PUT /api/orders/:id` handler
(`routes.ts` lines 192–196): admin, or the order's customer, or its
assigned delivery person, or a vendor whose vendor row owns the order. -/
def canUpdate (st : Store) (u : User) (o : Order) : Bool :=
  decide (u.role = Role.admin) ||
  decide (o.userId = u.id) ||
  decide (o.deliveryPersonId = some u.id) ||
  (decide (u.role = Role.vendor) &&
    match getVendorByUserId st u.id with
    | some v => decide (v.id = o.vendorId)
    | none => false)

/-- The `PUT /api/orders/:id` handler (`routes.ts` lines 180–207):
require authentication, look the order up, run the permission check,
then hand the body to `storage.updateOrder` unchanged. -/
def updateOrderRoute (st : Store) (actor : Option User) (oid : String)
    (b : UpdateBody) : RouteResult Order × Store :=
  match actor with
  | none => (.unauthorized, st)
  | some u =>
    match getOrder st oid with
    | none => (.notFound, st)
    | some o =>
      if canUpdate st u o then
        let o2 := applyBody o b
        (.ok o2,
          { st with orders := st.orders.map fun x => if decide (x.id = oid) then o2 else x })
      else (.forbidden, st)

/-- One WebSocket client as the broadcast loop sees it: its
`readyState === WebSocket.OPEN` flag and the `ws.orderId` slot the
`join_order` handler assigns.  `sid` identifies the socket. -/
structure Session where
  sid : Nat
  orderId : Option String
  isOpen : Bool
deriving DecidableEq, Repr

/-- The JSON body of a `POST /api/chats` request, projected to the
columns of `insertChatSchema` (an outer `none` = field absent). -/
structure ChatBody where
  orderId : Option String
  senderId : Option String
  receiverId : Option String
  message : Option String
deriving DecidableEq, Repr

/-- The `POST /api/chats` handler (`routes.ts` lines 242–269): require
authentication, validate `{...req.body, senderId: req.user.id}` against
`insertChatSchema` (the not-null columns `orderId`, `senderId`,
`receiverId`, `message` must be present; `senderId` is overridden with
the authenticated id before parsing, so the body's own `senderId` is
discarded), store the chat, then send the `chat_message` frame to every
client of `wss.clients` whose `readyState` is `OPEN`.  Returns the
result, the store, and the `sid`s of the sessions the frame went to. -/
def chatsRoute (st : Store) (clients : List Session) (actor : Option User)
    (b : ChatBody) : RouteResult Chat × Store × List Nat :=
  match actor with
  | none => (.unauthorized, st, [])
  | some u =>
    match b.orderId, b.receiverId, b.message with
    | some oid, some rid, some msg =>
      let c : Chat :=
        { orderId := oid, senderId := u.id, receiverId := rid
          message := msg, isRead := false }
      (.ok c, { st with chats := st.chats ++ [c] },
        (clients.filter fun s => s.isOpen).map fun s => s.sid)
    | _, _, _ => (.badRequest, st, [])

/-- The JSON body of a `POST /api/orders` request, projected to the
not-null, no-default columns of `insertOrderSchema` plus the `userId`
the handler overrides. -/
structure OrderBody where
  userId : Option String
  vendorId : Option String
  totalAmount : Option String
  deliveryAddress : Option String
  pickupAddress : Option String
deriving DecidableEq, Repr

/-- The `POST /api/orders` handler (`routes.ts` lines 151–178): require
authentication, validate `{...req.body, userId: req.user.id}` against
`insertOrderSchema` (so the body's own `userId` is discarded), create
the order with status defaulting to `pending`.  `freshId` stands for the
store-generated row id. -/
def createOrderRoute (st : Store) (freshId : String) (actor : Option User)
    (b : OrderBody) : RouteResult Order × Store :=
  match actor with
  | none => (.unauthorized, st)
  | some u =>
    match b.vendorId, b.totalAmount, b.deliveryAddress, b.pickupAddress with
    | some vid, some amt, some da, some pa =>
      let o : Order :=
        { id := freshId, userId := u.id, vendorId := vid
          deliveryPersonId := none, status := .pending
          totalAmount := amt, deliveryAddress := da, pickupAddress := pa
          actualDeliveryTime := none }
      (.ok o, { st with orders := st.orders ++ [o] })
    | _, _, _, _ => (.badRequest, st)

/-- An inbound WebSocket control frame as JSON fields (`none` = key
absent).  `ty` embeds the JSON key named `type`. -/
structure Frame where
  ty : Option String
  action : Option String
  orderId : Option String
deriving DecidableEq, Repr

/-- The WebSocket `message` handler (`routes.ts` lines 370–387): if the
parsed frame has `type === 'join_order'` the socket's `orderId` slot is
assigned `data.orderId`; every other frame is ignored. -/
def wsOnMessage (ws : Session) (f : Frame) : Session :=
  if decide (f.ty = some "join_order") then { ws with orderId := f.orderId }
  else ws

/-! ## Specification-side definitions

The following definitions are written from the words of the spec
(§4.1, §4.2, §6), not from the source; they exist to be compared with
the source-derived handlers above. -/

/-- Spec §4.1: the immediate successor in the transition graph
`pending → confirmed → preparing → ready → picked_up → in_transit →
delivered`. -/
def specNextStatus : OrderStatus → Option OrderStatus
  | .pending => some .confirmed
  | .confirmed => some .preparing
  | .preparing => some .ready
  | .ready => some .picked_up
  | .picked_up => some .in_transit
  | .in_transit => some .delivered
  | .delivered => none
  | .cancelled => none

/-- Spec §4.1: `delivered` and `cancelled` are terminal. -/
def specTerminal (s : OrderStatus) : Bool :=
  decide (s = .delivered) || decide (s = .cancelled)

/-- Spec §4.1: a transition is graph-valid iff the requested status is
the immediate successor of the current one, or is `cancelled` from a
non-terminal state. -/
def specGraphValid (cur req : OrderStatus) : Bool :=
  decide (specNextStatus cur = some req) ||
  (decide (req = .cancelled) && !specTerminal cur)

/-- Spec §4.2 / claim C1: the Authorization Guard's `canTransition`
rule — admin: any; vendor owning the order: only
`confirmed → preparing → ready`; assigned delivery agent: only
`ready → picked_up → in_transit → delivered`; the order's customer:
only `cancelled` while status is `pending` or `confirmed`. -/
def specCanTransition (st : Store) (o : Order) (u : User)
    (req : OrderStatus) : Bool :=
  if decide (u.role = Role.admin) then true
  else if decide (u.role = Role.vendor) then
    (match getVendorByUserId st u.id with
     | some v => decide (v.id = o.vendorId)
     | none => false) &&
    ((decide (o.status = .confirmed) && decide (req = .preparing)) ||
     (decide (o.status = .preparing) && decide (req = .ready)))
  else if decide (u.role = Role.delivery) then
    decide (o.deliveryPersonId = some u.id) &&
    ((decide (o.status = .ready) && decide (req = .picked_up)) ||
     (decide (o.status = .picked_up) && decide (req = .in_transit)) ||
     (decide (o.status = .in_transit) && decide (req = .delivered)))
  else
    decide (o.userId = u.id) && decide (req = .cancelled) &&
    (decide (o.status = .pending) || decide (o.status = .confirmed))

/-- Spec glossary / §6: a user id is a participant of an order iff it is
the customer, the assigned delivery agent, or owns the vendor of the
order. -/
def specIsParticipant (st : Store) (o : Order) (uid : String) : Bool :=
  decide (o.userId = uid) ||
  decide (o.deliveryPersonId = some uid) ||
  (match getVendorByUserId st uid with
   | some v => decide (v.id = o.vendorId)
   | none => false)

/-! ## Password comparison (`src/server/auth.ts`)

Passwords and stored hashes are embedded as `List Char`; the scrypt key
derivation (`crypto.scrypt`, an external primitive) is a parameter
returning the derived key as a byte list. -/

/-- Value of one hex digit, as `Buffer.from(·, "hex")` accepts them. -/
def hexVal (c : Char) : Option Nat :=
  if 48 ≤ c.toNat ∧ c.toNat ≤ 57 then some (c.toNat - 48)
  else if 97 ≤ c.toNat ∧ c.toNat ≤ 102 then some (c.toNat - 87)
  else if 65 ≤ c.toNat ∧ c.toNat ≤ 70 then some (c.toNat - 55)
  else none

/-- Node's `Buffer.from(s, "hex")`: decode two hex digits per byte,
stopping at the first incomplete or invalid pair. -/
def hexDecodeNode : List Char → List Nat
  | c1 :: c2 :: rest =>
    match hexVal c1, hexVal c2 with
    | some hi, some lo => (16 * hi + lo) :: hexDecodeNode rest
    | _, _ => []
  | _ => []

/-- JavaScript `stored.split(".")` on a character list. -/
def splitDot : List Char → List (List Char)
  | [] => [[]]
  | c :: rest =>
    if c = '.' then [] :: splitDot rest
    else
      match splitDot rest with
      | [] => [[c]]
      | p :: ps => (c :: p) :: ps

/-- The bcrypt-marker test of `comparePasswords`: the stored value
starts with `$2a$`, `$2b$` or `$2y$`. -/
def bcryptTag (s : List Char) : Bool :=
  List.isPrefixOf ['$', '2', 'a', '$'] s ||
  List.isPrefixOf ['$', '2', 'b', '$'] s ||
  List.isPrefixOf ['$', '2', 'y', '$'] s

/-- `comparePasswords(supplied, stored)` of `auth.ts` lines 24–54:
bcrypt-tagged stored values are rejected; the stored value must split on
`"."` into exactly two parts with a non-empty salt; the hash part is
hex-decoded and compared to `scrypt(supplied, salt, 64)` with
`timingSafeEqual`, whose length-mismatch throw is caught and turned into
`false`.  `scryptKey` is the external scrypt key derivation. -/
def comparePasswords (scryptKey : List Char → List Char → List Nat)
    (supplied stored : List Char) : Bool :=
  if bcryptTag stored then false
  else
    match splitDot stored with
    | [hashed, salt] =>
      if salt.isEmpty then false
      else
        let hashedBuf := hexDecodeNode hashed
        let suppliedBuf := scryptKey supplied salt
        if decide (hashedBuf.length = suppliedBuf.length) then
          decide (hashedBuf = suppliedBuf)
        else false
    | _ => false

/-- A row of the `users` table as the LocalStrategy reads it. -/
structure AuthUser where
  username : List Char
  password : List Char
deriving DecidableEq, Repr

/-- The passport `LocalStrategy` verify callback (`auth.ts` lines
69–78): look the user up by username, succeed iff the user exists and
`comparePasswords` accepts.  `getUserByUsername` is the external store
lookup. -/
def localStrategyVerify (scryptKey : List Char → List Char → List Nat)
    (getUserByUsername : List Char → Option AuthUser)
    (username password : List Char) : Option AuthUser :=
  match getUserByUsername username with
  | none => none
  | some u =>
    if comparePasswords scryptKey password u.password then some u else none

/-! ## Concrete fixtures

A small store used to evaluate the handlers on concrete inputs. -/

/-- A customer account (role `user`). -/
def userCust : User := { id := "cust", role := .user }

/-- An administrator account. -/
def userAdmin : User := { id := "admin1", role := .admin }

/-- An account that participates in no order of the fixture store. -/
def userEve : User := { id := "eve", role := .user }

/-- The fixture vendor row: vendor `v1` owned by user `vu`. -/
def vendor1 : Vendor := { id := "v1", userId := "vu" }

/-- A pending, unassigned order of customer `cust` at vendor `v1`. -/
def orderPending : Order :=
  { id := "o1", userId := "cust", vendorId := "v1", deliveryPersonId := none
    status := .pending, totalAmount := "10", deliveryAddress := "A"
    pickupAddress := "B", actualDeliveryTime := none }

/-- A delivered order of `cust` with delivery agent `d1` assigned. -/
def orderDone : Order :=
  { id := "o2", userId := "cust", vendorId := "v1", deliveryPersonId := some "d1"
    status := .delivered, totalAmount := "20", deliveryAddress := "A"
    pickupAddress := "B", actualDeliveryTime := none }

/-- An in-transit order of `cust` with delivery agent `d1` assigned. -/
def orderMoving : Order :=
  { id := "o3", userId := "cust", vendorId := "v1", deliveryPersonId := some "d1"
    status := .in_transit, totalAmount := "30", deliveryAddress := "A"
    pickupAddress := "B", actualDeliveryTime := none }

/-- The fixture store. -/
def baseStore : Store :=
  { orders := [orderPending, orderDone, orderMoving]
    vendors := [vendor1], chats := [] }

/-! ## Theorems -/

/-- C1 (counterexample): the customer of a `pending` order requests
`delivered` — a transition the Authorization Guard does not cover for a
customer and that is not graph-valid — yet `updateOrderStatus`
(`PUT /api/orders/:id`) succeeds instead of failing with `Forbidden` or
`InvalidTransition`.  This refutes the claimed iff. -/
theorem C1_counterexample :
    (updateOrderRoute baseStore (some userCust) "o1"
        { status := some .delivered, deliveryPersonId := none
          actualDeliveryTime := none }).1
      = .ok (applyBody orderPending
          { status := some .delivered, deliveryPersonId := none
            actualDeliveryTime := none })
    ∧ specCanTransition baseStore orderPending userCust .delivered = false
    ∧ specGraphValid OrderStatus.pending .delivered = false := by decide

/-- C1 (amended): for an existing order, `updateOrderStatus` succeeds
iff the actor passes the handler's generic permission check (admin, the
order's customer, its assigned delivery person, or a vendor owning the
order); the requested status and the transition graph are not consulted
at all. -/
theorem C1_theorem (st : Store) (u : User) (oid : String) (b : UpdateBody)
    (o : Order) (h : getOrder st oid = some o) :
    (updateOrderRoute st (some u) oid b).1 = .ok (applyBody o b)
      ↔ canUpdate st u o = true := by
  simp only [updateOrderRoute, h]
  cases hc : canUpdate st u o <;> simp [hc]

/-- C1 (witness): the amended claim evaluated on the fixture store. -/
theorem C1_witness :
    ((updateOrderRoute baseStore (some userAdmin) "o1"
        { status := some .confirmed, deliveryPersonId := none
          actualDeliveryTime := none }).1
      = .ok (applyBody orderPending
          { status := some .confirmed, deliveryPersonId := none
            actualDeliveryTime := none }))
      ↔ canUpdate baseStore userAdmin orderPending = true :=
  C1_theorem baseStore userAdmin "o1"
    { status := some .confirmed, deliveryPersonId := none
      actualDeliveryTime := none }
    orderPending (by decide)

/-- C2 (counterexample): re-submitting the order's current status
(`pending` on a `pending` order, by its owner) succeeds as a no-op
update instead of being rejected as `InvalidTransition`. -/
theorem C2_counterexample :
    (updateOrderRoute baseStore (some userCust) "o1"
        { status := some .pending, deliveryPersonId := none
          actualDeliveryTime := none }).1 = .ok orderPending
    ∧ orderPending.status = .pending := by decide

/-- C2 (amended): the handler performs no transition validation; in
particular, re-submitting the order's current status succeeds and
returns the order unchanged whenever the permission check passes — there
is no `InvalidTransition` outcome in the code. -/
theorem C2_theorem (st : Store) (u : User) (oid : String) (o : Order)
    (h : getOrder st oid = some o) (hp : canUpdate st u o = true) :
    (updateOrderRoute st (some u) oid
        { status := some o.status, deliveryPersonId := none
          actualDeliveryTime := none }).1 = .ok o := by
  simp [updateOrderRoute, h, hp, applyBody]

/-- C2 (witness): the amended claim evaluated on the fixture store. -/
theorem C2_witness :
    (updateOrderRoute baseStore (some userCust) "o3"
        { status := some orderMoving.status, deliveryPersonId := none
          actualDeliveryTime := none }).1 = .ok orderMoving :=
  C2_theorem baseStore userCust "o3" orderMoving (by decide) (by decide)

/-- C3: a chat message posted for order `o1` is broadcast to every open
WebSocket client — including a session subscribed to a different order
and a session subscribed to none — contradicting the claimed
subscription-filtered delivery.  The spec itself (§9) marks the
broadcast-to-all behavior of the code as a latent bug. -/
theorem C3_theorem :
    (chatsRoute baseStore
        [ { sid := 1, orderId := some "o1", isOpen := true }
        , { sid := 2, orderId := some "o2", isOpen := true }
        , { sid := 3, orderId := none, isOpen := true } ]
        (some userCust)
        { orderId := some "o1", senderId := none
          receiverId := some "vu", message := some "hi" }).2.2 = [1, 2, 3]
    ∧ (some "o2" : Option String) ≠ some "o1"
    ∧ (none : Option String) ≠ some "o1" := by decide

/-- C4 (counterexample): a user who is not a participant of order `o2`
sends a chat on it naming a receiver (`mallory`) outside the order's
three participants; the request succeeds with the client-chosen
receiver stored, instead of failing with `Forbidden`. -/
theorem C4_counterexample :
    (chatsRoute baseStore [] (some userEve)
        { orderId := some "o2", senderId := none
          receiverId := some "mallory", message := some "hi" }).1
      = .ok { orderId := "o2", senderId := "eve", receiverId := "mallory"
              message := "hi", isRead := false }
    ∧ specIsParticipant baseStore orderDone "eve" = false
    ∧ specIsParticipant baseStore orderDone "mallory" = false := by decide

/-- C4 (amended): the chat handler derives only `senderId` (forced to
the authenticated user's id); `receiverId` is stored exactly as supplied
by the client, and no participant or receiver check is performed — any
authenticated user may send on any order naming any receiver. -/
theorem C4_theorem (st : Store) (clients : List Session) (u : User)
    (b : ChatBody) (oid rid msg : String)
    (h1 : b.orderId = some oid) (h2 : b.receiverId = some rid)
    (h3 : b.message = some msg) :
    (chatsRoute st clients (some u) b).1
      = .ok { orderId := oid, senderId := u.id, receiverId := rid
              message := msg, isRead := false } := by
  obtain ⟨bo, bs, br, bm⟩ := b
  simp only at h1 h2 h3
  subst h1; subst h2; subst h3
  rfl

/-- C4 (witness): the amended claim evaluated on a concrete send. -/
theorem C4_witness :
    (chatsRoute baseStore [] (some userCust)
        { orderId := some "o1", senderId := some "spoof"
          receiverId := some "vu", message := some "yo" }).1
      = .ok { orderId := "o1", senderId := "cust", receiverId := "vu"
              message := "yo", isRead := false } :=
  C4_theorem baseStore [] userCust
    { orderId := some "o1", senderId := some "spoof"
      receiverId := some "vu", message := some "yo" }
    "o1" "vu" "yo" rfl rfl rfl

/-- C5 (counterexample): the order's customer — not an administrator —
reassigns `deliveryPersonId` from `d1` to `d2` on an order whose status
is `delivered` (past `ready`), and the already-set value changes;
assignment is neither admin-only, nor status-windowed, nor immutable. -/
theorem C5_counterexample :
    (updateOrderRoute baseStore (some userCust) "o2"
        { status := none, deliveryPersonId := some (some "d2")
          actualDeliveryTime := none }).1
      = .ok { orderDone with deliveryPersonId := some "d2" }
    ∧ userCust.role ≠ Role.admin
    ∧ orderDone.status = .delivered
    ∧ orderDone.deliveryPersonId = some "d1" := by decide

/-- C5 (amended): any actor passing the handler's permission check can
set `deliveryPersonId` to any value through `PUT /api/orders/:id`, at
any status and regardless of any previously assigned agent. -/
theorem C5_theorem (st : Store) (u : User) (oid : String) (b : UpdateBody)
    (o : Order) (d : Option String)
    (h : getOrder st oid = some o) (hp : canUpdate st u o = true)
    (hb : b.deliveryPersonId = some d) :
    (updateOrderRoute st (some u) oid b).1 = .ok (applyBody o b)
    ∧ (applyBody o b).deliveryPersonId = d := by
  constructor
  · simp [updateOrderRoute, h, hp]
  · simp [applyBody, hb]

/-- C5 (witness): the amended claim evaluated on the fixture store. -/
theorem C5_witness :
    (updateOrderRoute baseStore (some userCust) "o2"
        { status := none, deliveryPersonId := some (some "d2")
          actualDeliveryTime := none }).1
      = .ok (applyBody orderDone
          { status := none, deliveryPersonId := some (some "d2")
            actualDeliveryTime := none })
    ∧ (applyBody orderDone
        { status := none, deliveryPersonId := some (some "d2")
          actualDeliveryTime := none }).deliveryPersonId = some "d2" :=
  C5_theorem baseStore userCust "o2"
    { status := none, deliveryPersonId := some (some "d2")
      actualDeliveryTime := none }
    orderDone (some "d2") (by decide) (by decide) rfl

/-- C6 (counterexample): an administrator moves an `in_transit` order to
`delivered` with a body carrying only the status; the persisted order
has the new status but `actualDeliveryTime` is still unset — the
transition into `delivered` did not stamp it. -/
theorem C6_counterexample :
    (updateOrderRoute baseStore (some userAdmin) "o3"
        { status := some .delivered, deliveryPersonId := none
          actualDeliveryTime := none }).1
      = .ok { orderMoving with status := .delivered }
    ∧ ({ orderMoving with status := .delivered } : Order).actualDeliveryTime
        = none := by decide

/-- C6 (amended): the handler writes exactly the fields present in the
request body; for any requested status — `delivered` included — a body
that does not itself carry `actualDeliveryTime` leaves that column
unchanged; no stamping happens on the success path. -/
theorem C6_theorem (st : Store) (u : User) (oid : String) (b : UpdateBody)
    (o : Order)
    (h : getOrder st oid = some o) (hp : canUpdate st u o = true)
    (hb : b.actualDeliveryTime = none) :
    (updateOrderRoute st (some u) oid b).1 = .ok (applyBody o b)
    ∧ (applyBody o b).actualDeliveryTime = o.actualDeliveryTime := by
  constructor
  · simp [updateOrderRoute, h, hp]
  · simp [applyBody, hb]

/-- C6 (witness): the amended claim evaluated on a concrete transition
into `delivered`. -/
theorem C6_witness :
    (updateOrderRoute baseStore (some userAdmin) "o3"
        { status := some .delivered, deliveryPersonId := none
          actualDeliveryTime := none }).1
      = .ok (applyBody orderMoving
          { status := some .delivered, deliveryPersonId := none
            actualDeliveryTime := none })
    ∧ (applyBody orderMoving
        { status := some .delivered, deliveryPersonId := none
          actualDeliveryTime := none }).actualDeliveryTime
        = orderMoving.actualDeliveryTime :=
  C6_theorem baseStore userAdmin "o3"
    { status := some .delivered, deliveryPersonId := none
      actualDeliveryTime := none }
    orderMoving (by decide) (by decide) rfl

/-- C7 (counterexample): the subscribe frame the code accepts is keyed
`type`, not `action` — a frame carrying only `action: "join_order"` is
ignored — and a `type`-keyed subscribe is granted unconditionally: the
socket carries no actor identity and the handler consults neither the
store nor any participant check (here `eve` is not a participant of
order `o1`, yet nothing could reject a subscribe on their behalf). -/
theorem C7_counterexample :
    wsOnMessage { sid := 7, orderId := none, isOpen := true }
        { ty := some "join_order", action := none, orderId := some "o1" }
      = { sid := 7, orderId := some "o1", isOpen := true }
    ∧ wsOnMessage { sid := 7, orderId := none, isOpen := true }
        { ty := none, action := some "join_order", orderId := some "o1" }
      = { sid := 7, orderId := none, isOpen := true }
    ∧ specIsParticipant baseStore orderPending "eve" = false := by decide

/-- C7 (amended): the WebSocket message handler subscribes the socket to
`f.orderId` exactly when the frame's `type` field is `"join_order"`, and
ignores every other frame; no participant or authorization check is
involved. -/
theorem C7_theorem (ws : Session) (f : Frame) :
    (f.ty = some "join_order" → wsOnMessage ws f = { ws with orderId := f.orderId })
    ∧ (f.ty ≠ some "join_order" → wsOnMessage ws f = ws) := by
  constructor <;> intro h <;> simp [wsOnMessage, h]

/-- C7 (witness): both branches of the amended claim on concrete
frames. -/
theorem C7_witness :
    wsOnMessage { sid := 7, orderId := none, isOpen := true }
        { ty := some "join_order", action := none, orderId := some "o3" }
      = { sid := 7, orderId := some "o3", isOpen := true }
    ∧ wsOnMessage { sid := 7, orderId := none, isOpen := true }
        { ty := some "chat", action := none, orderId := some "o3" }
      = { sid := 7, orderId := none, isOpen := true } :=
  ⟨(C7_theorem { sid := 7, orderId := none, isOpen := true }
      { ty := some "join_order", action := none, orderId := some "o3" }).1 rfl,
   (C7_theorem { sid := 7, orderId := none, isOpen := true }
      { ty := some "chat", action := none, orderId := some "o3" }).2 (by decide)⟩

/-- C8: a status-update request for an order id absent from the store
fails with `NotFound` and leaves the store untouched. -/
theorem C8_theorem (st : Store) (u : User) (oid : String) (b : UpdateBody)
    (h : getOrder st oid = none) :
    updateOrderRoute st (some u) oid b = (.notFound, st) := by
  simp [updateOrderRoute, h]

/-- C8 (witness): the claim evaluated on an id the fixture store does
not contain. -/
theorem C8_witness :
    updateOrderRoute baseStore (some userCust) "missing"
        { status := some .cancelled, deliveryPersonId := none
          actualDeliveryTime := none }
      = (.notFound, baseStore) :=
  C8_theorem baseStore userCust "missing"
    { status := some .cancelled, deliveryPersonId := none
      actualDeliveryTime := none } (by decide)

/-- C9: the chat and order creation handlers override the body's
`senderId` / `userId` with the authenticated user's id before parsing:
two requests differing only in that body field produce identical
outcomes (response, store and broadcast alike), and every stored record
carries the session's id. -/
theorem C9_theorem (st : Store) (clients : List Session) (freshId : String)
    (u : User) (cb : ChatBody) (ob : OrderBody) (s1 s2 u1 u2 : Option String) :
    chatsRoute st clients (some u) { cb with senderId := s1 }
      = chatsRoute st clients (some u) { cb with senderId := s2 }
    ∧ createOrderRoute st freshId (some u) { ob with userId := u1 }
      = createOrderRoute st freshId (some u) { ob with userId := u2 }
    ∧ (∀ c, (chatsRoute st clients (some u) cb).1 = .ok c → c.senderId = u.id)
    ∧ (∀ o, (createOrderRoute st freshId (some u) ob).1 = .ok o
        → o.userId = u.id) := by
  obtain ⟨bo, bs, br, bm⟩ := cb
  obtain ⟨ou, ov, ot, od, op⟩ := ob
  refine ⟨?_, ?_, ?_, ?_⟩
  · cases bo <;> cases br <;> cases bm <;> rfl
  · cases ov <;> cases ot <;> cases od <;> cases op <;> rfl
  · intro c hc
    cases bo <;> cases br <;> cases bm <;> simp_all [chatsRoute]
    subst hc; rfl
  · intro o ho
    cases ov <;> cases ot <;> cases od <;> cases op <;>
      simp_all [createOrderRoute]
    subst ho; rfl

/-- C9 (witness): both override properties on concrete requests. -/
theorem C9_witness :
    chatsRoute baseStore [] (some userCust)
        { orderId := some "o1", senderId := some "spoofA"
          receiverId := some "vu", message := some "yo" }
      = chatsRoute baseStore [] (some userCust)
        { orderId := some "o1", senderId := some "spoofB"
          receiverId := some "vu", message := some "yo" }
    ∧ ({ orderId := "o1", senderId := "cust", receiverId := "vu"
         message := "yo", isRead := false } : Chat).senderId = userCust.id :=
  ⟨(C9_theorem baseStore [] "n1" userCust
      { orderId := some "o1", senderId := none
        receiverId := some "vu", message := some "yo" }
      { userId := none, vendorId := some "v1", totalAmount := some "10"
        deliveryAddress := some "A", pickupAddress := some "B" }
      (some "spoofA") (some "spoofB") none none).1,
   (C9_theorem baseStore [] "n1" userCust
      { orderId := some "o1", senderId := some "ignored"
        receiverId := some "vu", message := some "yo" }
      { userId := none, vendorId := some "v1", totalAmount := some "10"
        deliveryAddress := some "A", pickupAddress := some "B" }
      none none none none).2.2.1
      { orderId := "o1", senderId := "cust", receiverId := "vu"
        message := "yo", isRead := false } rfl⟩

/-- C10: `comparePasswords` is total in the embedding and returns
`false` for every malformed stored value — a bcrypt-tagged value, a
value that does not split on `"."` into exactly two parts, or one whose
hash part does not hex-decode to the 64 bytes scrypt produces — for any
supplied password; through the LocalStrategy this makes authentication
fail for such a user regardless of the supplied password. -/
theorem C10_theorem (k : List Char → List Char → List Nat)
    (hk : ∀ s t, (k s t).length = 64) (stored : List Char)
    (hbad : bcryptTag stored = true
      ∨ (splitDot stored).length ≠ 2
      ∨ (∀ hashed salt, splitDot stored = [hashed, salt] →
          (hexDecodeNode hashed).length ≠ 64)) :
    (∀ supplied, comparePasswords k supplied stored = false)
    ∧ ∀ (getU : List Char → Option AuthUser) (username supplied : List Char)
        (u : AuthUser), getU username = some u → u.password = stored →
        localStrategyVerify k getU username supplied = none := by
  have main : ∀ supplied, comparePasswords k supplied stored = false := by
    intro supplied
    rcases hbad with hb | hb | hb
    · simp [comparePasswords, hb]
    · rcases hsp : splitDot stored with _ | ⟨a, _ | ⟨c, _ | _⟩⟩ <;>
        simp_all [comparePasswords, hsp]
    · rcases hsp : splitDot stored with _ | ⟨a, _ | ⟨c, _ | _⟩⟩ <;>
        simp_all [comparePasswords, hsp, hk]
  refine ⟨main, ?_⟩
  intro getU username supplied u hu hpw
  simp [localStrategyVerify, hu, hpw, main supplied]

/-- C10 (witness): a bcrypt-tagged stored value is rejected under a
concrete 64-byte key derivation. -/
theorem C10_witness :
    comparePasswords (fun _ _ => List.replicate 64 0)
      ['p'] ['$', '2', 'a', '$'] = false :=
  (C10_theorem (fun _ _ => List.replicate 64 0) (fun _ _ => by simp)
    ['$', '2', 'a', '$'] (Or.inl (by decide))).1 ['p']

end EkClick
